import Mathlib

/-!
Shallow embedding of the x402 payment-retry flow of
src/mcp-server/src/tools/fetch_x402.ts (the tezos_fetch_x402 tool handler).

Modelling conventions:
* JavaScript numbers that can be NaN (the result of parseInt on the
  maxAmountRequired string) are modelled as Option Int, with none standing
  for NaN; the comparison operators mirror the JS semantics where every
  comparison against NaN is false.
* The maxPayment input (a JS number of whole XTZ) is modelled as a rational;
  xtzToMutez is Math.floor(x * 1_000_000), written with Int.fdiv so that it
  evaluates by kernel reduction.
* Strings are handled through their character lists, because the builtin
  String.map does not reduce in the kernel.
* JSON.parse of the 402 body is not re-implemented; a response carries both
  its raw body text and a BodyParse classification (malformed, or the parsed
  structured shape).  Base64/JSON decoding of the retry response's
  X-PAYMENT-RESPONSE header is likewise an environment-supplied outcome.
* The collaborators (fetch, balance query, transfer, confirmation wait) are
  an Env record of outcomes; the handler is a pure function of the Env.
  Exceptions that escape the handler are the .error case of Except; chain
  interactions are recorded in a ChainCall trace.
-/

namespace X402

/-- Lowercasing as in JS String.toLowerCase, restricted to the ASCII range
that appears in network identifiers and header names. -/
def strToLower (s : String) : String := ⟨s.data.map Char.toLower⟩

/-- Uppercasing as in JS String.toUpperCase (ASCII). -/
def strToUpper (s : String) : String := ⟨s.data.map Char.toUpper⟩

/-- Substring containment on character lists (JS String.includes). -/
def listContainsSub (sub : List Char) : List Char → Bool
  | [] => sub.isEmpty
  | c :: rest => sub.isPrefixOf (c :: rest) || listContainsSub sub rest

/-- JS s.includes(sub). -/
def strIncludes (s sub : String) : Bool := listContainsSub sub.data s.data

/-- The network test of fetch_x402.ts line 49 and 188:
network.toLowerCase().includes("tezos"). -/
def networkIsTezos (n : String) : Bool := strIncludes (strToLower n) "tezos"

/-- The address shape of fetch_x402.ts line 251:
regular expression (tz1|tz2|tz3|KT1)[a-zA-Z0-9]\x7b33\x7d anchored both ends. -/
def validTezosAddress (s : String) : Bool :=
  let cs := s.data
  (cs.length == 36)
    && ("tz1".data.isPrefixOf cs || "tz2".data.isPrefixOf cs
        || "tz3".data.isPrefixOf cs || "KT1".data.isPrefixOf cs)
    && ((cs.drop 3).all fun c => c.isAlpha || c.isDigit)

/-- The digit run that JS parseInt(s, 10) consumes: leading whitespace is
skipped, then one optional sign, then the longest run of decimal digits. -/
def jsDigitsOf (s : String) : List Char :=
  let cs := s.data.dropWhile Char.isWhitespace
  let rest := match cs with
    | '-' :: r => r
    | '+' :: r => r
    | _ => cs
  rest.takeWhile Char.isDigit

/-- The sign that JS parseInt(s, 10) applies. -/
def jsSignOf (s : String) : Int :=
  match s.data.dropWhile Char.isWhitespace with
  | '-' :: _ => -1
  | _ => 1

/-- JS parseInt(s, 10): none models NaN (no digits found). -/
def jsParseInt (s : String) : Option Int :=
  let ds := jsDigitsOf s
  if ds.isEmpty then none
  else some (jsSignOf s * ((ds.foldl (fun a c => a * 10 + (c.toNat - 48)) 0 : Nat) : Int))

/-- JS comparison a > b where a may be NaN: NaN compares false. -/
def jGt (a : Option Int) (b : Int) : Bool :=
  match a with
  | some x => decide (b < x)
  | none => false

/-- JS addition a + k where a may be NaN: NaN propagates. -/
def jAdd (a : Option Int) (k : Int) : Option Int := a.map (· + k)

/-- The balance gate of fetch_x402.ts line 266:
balance < amountMutez + 100000, false when amountMutez is NaN. -/
def balanceBelow (balance : Int) (amount : Option Int) : Bool :=
  match jAdd amount 100000 with
  | some need => decide (balance < need)
  | none => false

/-- fetch_x402.ts line 39: Math.floor(xtz * MUTEZ_PER_TEZ). -/
def xtzToMutez (x : ℚ) : Int := Int.fdiv (x.num * 1000000) (x.den : Int)

/-- fetch_x402.ts line 103: maxPayment ? xtzToMutez(maxPayment) : xtzToMutez(1).
A JS number is falsy when it is absent or zero, so maxPayment = 0 takes the
default branch. -/
def maxPaymentMutezOf (maxPayment : Option ℚ) : Int :=
  match maxPayment with
  | some q => if q.num = 0 then xtzToMutez 1 else xtzToMutez q
  | none => xtzToMutez 1

/-- fetch_x402.ts line 5. -/
def confirmationsToWait : Nat := 3

/-- The X402PaymentRequirements record of fetch_x402.ts lines 8-19.  Optional
fields of the TS interface are Option; network, maxAmountRequired, resource
and payTo are declared required there. -/
structure X402PaymentRequirements where
  scheme : Option String := none
  network : String
  maxAmountRequired : String
  resource : String := ""
  description : Option String := none
  mimeType : Option String := none
  payTo : String
  asset : Option String := none
  expiry : Option Int := none
  deriving Repr, DecidableEq

/-- The structured shape of a parsed 402 body (fetch_x402.ts lines 21-26). -/
structure X402Response where
  accepts : Option (List X402PaymentRequirements) := none
  paymentRequirements : Option X402PaymentRequirements := none
  deriving Repr, DecidableEq

/-- Outcome of JSON.parse on the 402 body: either it throws (malformed) or it
yields a structured value. -/
inductive BodyParse where
  | malformed
  | parsed (r : X402Response)
  deriving Repr, DecidableEq

/-- Response headers as a list of name/value pairs. -/
def HeadersMap := List (String × String)
  deriving Repr, DecidableEq

/-- Headers.get: case-insensitive name lookup, null when absent. -/
def headerGet (h : HeadersMap) (k : String) : Option String :=
  (List.find? (fun q => strToLower q.1 == strToLower k) h).map (·.2)

/-- JS truthiness of a nullable header value: null and the empty string are
falsy. -/
def headerTruthy (v : Option String) : Option String :=
  match v with
  | some s => if s = "" then none else some s
  | none => none

/-- The header fallback of fetch_x402.ts lines 59-72: requires truthy
X-Payment-Address and X-Payment-Amount; network and asset default. -/
def headerFallback (responseHeaders : HeadersMap) : Option X402PaymentRequirements :=
  match headerTruthy (headerGet responseHeaders "X-Payment-Address"),
        headerTruthy (headerGet responseHeaders "X-Payment-Amount") with
  | some payTo, some amount =>
      some { scheme := some "exact"
             network := (headerTruthy (headerGet responseHeaders "X-Payment-Network")).getD "tezos"
             maxAmountRequired := amount
             resource := ""
             payTo := payTo
             asset := some ((headerTruthy (headerGet responseHeaders "X-Payment-Asset")).getD "XTZ") }
  | _, _ => none

/-- parsePaymentRequirements of fetch_x402.ts lines 43-78.  The whole body,
including the header fallback, sits inside one try block: when JSON.parse
throws (malformed body) the function returns null without consulting the
headers. -/
def parsePaymentRequirements (body : BodyParse) (responseHeaders : HeadersMap) :
    Option X402PaymentRequirements :=
  match body with
  | .malformed => none
  | .parsed b =>
    match b.accepts with
    | some accepts =>
      if accepts.length > 0 then
        match accepts.find? (fun req => networkIsTezos req.network) with
        | some tezosOption => some tezosOption
        | none => accepts.head?
      else
        match b.paymentRequirements with
        | some r => some r
        | none => headerFallback responseHeaders
    | none =>
      match b.paymentRequirements with
      | some r => some r
      | none => headerFallback responseHeaders

/-- An HTTP response as the handler observes it: status, status text, headers,
raw body text, and the classification of JSON.parse applied to that body. -/
structure Resp where
  status : Nat
  statusText : String := ""
  headers : HeadersMap := []
  bodyText : String := ""
  bodyParse : BodyParse := .malformed
  deriving Repr, DecidableEq

/-- response.ok of the Fetch API: status in the range 200-299. -/
def respOk (r : Resp) : Bool := decide (200 ≤ r.status) && decide (r.status < 300)

/-- Tool construction arguments (fetch_x402.ts lines 80-84) that the handler
reads: the wallet address bound to the flow. -/
structure Config where
  walletAddress : String
  deriving Repr, DecidableEq

/-- The handler inputs of fetch_x402.ts lines 99-101. -/
structure Params where
  url : String
  method : String := "GET"
  headers : List (String × String) := []
  body : Option String := none
  maxPayment : Option ℚ := none
  autoRetry : Bool := true

/-- Outcomes of the external collaborators for one call: the initial fetch,
the wall clock, the balance query, the transfer submission, the confirmation
wait, the retry fetch, and the decode of the retry response's
X-PAYMENT-RESPONSE header (base64 + JSON.parse, which throws on a malformed
value). -/
structure Env where
  initialFetch : Except String Resp
  now : Int := 0
  balance : Except String Int := .ok 0
  transfer : Except String String := .error "no transfer"
  confirmation : Except String Unit := .ok ()
  retryFetch : Except String Resp := .error "no retry"
  proofRespDecode : Except String String := .ok ""

/-- One chain interaction, in the order the handler performs them. -/
inductive ChainCall where
  | balanceQuery (address : String)
  | transferSubmit (toAddr : String) (amountMutez : Option Int)
  | confirmWait (depth : Nat)
  deriving Repr, DecidableEq

/-- The authorization transcript inside a payment proof (fetch_x402.ts lines
311-317).  The amount is kept as the numeric value (none models the NaN
string). -/
structure PaymentAuthorization where
  fromAddr : String
  toAddr : String
  amount : Option Int
  asset : String
  opHash : String
  deriving Repr, DecidableEq

/-- The payment proof of fetch_x402.ts lines 306-319. -/
structure PaymentProof where
  scheme : String
  network : String
  signature : String
  authorization : PaymentAuthorization
  deriving Repr, DecidableEq

/-- The tagged results the handler can return, one constructor per distinct
return site of fetch_x402.ts.  Message strings that only interpolate numbers
are represented by their structured fields. -/
inductive FetchResult where
  | notPaymentRequired (status : Nat) (statusText : String) (headers : HeadersMap)
      (body : String) (ok : Bool)
  | unparsableRequirement (rawBody : String)
  | manualPayInstruction (paymentRequirements : X402PaymentRequirements)
  | unsupportedNetwork (network : String) (paymentRequirements : X402PaymentRequirements)
  | paymentLimitExceeded (amountMutez : Option Int) (limitMutez : Int)
      (paymentRequirements : X402PaymentRequirements)
  | unsupportedAsset (asset : String) (paymentRequirements : X402PaymentRequirements)
  | paymentExpired (expiry : Option Int) (paymentRequirements : X402PaymentRequirements)
  | invalidAddress (address : String) (paymentRequirements : X402PaymentRequirements)
  | insufficientBalance (neededMutez : Option Int) (haveMutez : Int)
      (paymentRequirements : X402PaymentRequirements)
  | paymentExecutionFailed (message : String) (paymentRequirements : X402PaymentRequirements)
  | paymentMadeRetryFailed (message : String) (opHash : String) (amountMutez : Option Int)
      (proof : PaymentProof)
  | paymentSucceeded (success : Bool) (status : Nat) (statusText : String) (body : String)
      (amountMutez : Option Int) (recipient : String) (opHash : String) (proof : PaymentProof)
      (counterProof : Option String)
  deriving Repr, DecidableEq

/-- The kind tag of a result, for stating which failure branch was taken. -/
def kindOf : FetchResult → String
  | .notPaymentRequired _ _ _ _ _ => "NotPaymentRequired"
  | .unparsableRequirement _ => "UnparsablePaymentRequirement"
  | .manualPayInstruction _ => "ManualPayInstruction"
  | .unsupportedNetwork _ _ => "UnsupportedNetwork"
  | .paymentLimitExceeded _ _ _ => "PaymentLimitExceeded"
  | .unsupportedAsset _ _ => "UnsupportedAsset"
  | .paymentExpired _ _ => "PaymentExpired"
  | .invalidAddress _ _ => "InvalidAddress"
  | .insufficientBalance _ _ _ => "InsufficientBalance"
  | .paymentExecutionFailed _ _ => "PaymentExecutionFailed"
  | .paymentMadeRetryFailed _ _ _ _ => "PaymentMadeRetryFailed"
  | .paymentSucceeded _ _ _ _ _ _ _ _ _ => "PaymentSucceeded"

/-- The kind tag of a whole handler outcome (none when an exception escaped). -/
def kindOfOutcome : Except String (FetchResult × List ChainCall) → Option String
  | .ok (r, _) => some (kindOf r)
  | .error _ => none

/-- The parsed requirement a result carries as context, when it carries one. -/
def reqOfResult : FetchResult → Option X402PaymentRequirements
  | .manualPayInstruction r => some r
  | .unsupportedNetwork _ r => some r
  | .paymentLimitExceeded _ _ r => some r
  | .unsupportedAsset _ r => some r
  | .paymentExpired _ r => some r
  | .invalidAddress _ r => some r
  | .insufficientBalance _ _ r => some r
  | .paymentExecutionFailed _ r => some r
  | _ => none

/-- The payment proof a result carries, when it carries one. -/
def proofOfResult : FetchResult → Option PaymentProof
  | .paymentMadeRetryFailed _ _ _ pf => some pf
  | .paymentSucceeded _ _ _ _ _ _ _ pf _ => some pf
  | _ => none

/-- fetch_x402.ts line 218: paymentReqs.asset?.toUpperCase() || "XTZ" (an
absent asset and the empty string both fall back to XTZ). -/
def assetOf (a : Option String) : String :=
  match a with
  | some s => if strToUpper s = "" then "XTZ" else strToUpper s
  | none => "XTZ"

/-- fetch_x402.ts lines 233-235: the expiry gate only runs when expiry is
truthy (present and nonzero), and fails when now is strictly past it. -/
def expiryPassed (expiry : Option Int) (now : Int) : Bool :=
  match expiry with
  | some e => if e = 0 then false else decide (e < now)
  | none => false

/-- fetch_x402.ts lines 168-170: a falsy (empty) resource field is overwritten
with the request url before any gate runs. -/
def defaultResource (req : X402PaymentRequirements) (url : String) :
    X402PaymentRequirements :=
  if req.resource = "" then { req with resource := url } else req

/-- fetch_x402.ts lines 306-320: the proof built after confirmation. -/
def mkPaymentProof (cfg : Config) (req : X402PaymentRequirements)
    (amountMutez : Option Int) (opHash : String) : PaymentProof :=
  { scheme := "exact"
    network := req.network
    signature := opHash
    authorization :=
      { fromAddr := cfg.walletAddress
        toAddr := req.payTo
        amount := amountMutez
        asset := "XTZ"
        opHash := opHash } }

/-- The chain-call trace once the transfer has been submitted and confirmed. -/
def paidCalls (cfg : Config) (req : X402PaymentRequirements)
    (amountMutez : Option Int) : List ChainCall :=
  [.balanceQuery cfg.walletAddress, .transferSubmit req.payTo amountMutez,
   .confirmWait confirmationsToWait]

/-- fetch_x402.ts lines 322-382: build the proof, reissue the request with it,
and shape the final result.  A transport failure of the retry is caught and
reported as the payment-made-retry-failed result carrying the operation hash;
a malformed X-PAYMENT-RESPONSE header makes JSON.parse throw uncaught. -/
def retryPhase (cfg : Config) (env : Env) (req : X402PaymentRequirements)
    (amountMutez : Option Int) (opHash : String) :
    Except String (FetchResult × List ChainCall) :=
  let proof := mkPaymentProof cfg req amountMutez opHash
  match env.retryFetch with
  | .error msg =>
      .ok (.paymentMadeRetryFailed ("Payment OK but retry failed: " ++ msg) opHash
            amountMutez proof, paidCalls cfg req amountMutez)
  | .ok retryResponse =>
      match headerTruthy (headerGet retryResponse.headers "X-PAYMENT-RESPONSE") with
      | none =>
          .ok (.paymentSucceeded (respOk retryResponse) retryResponse.status
                retryResponse.statusText retryResponse.bodyText amountMutez req.payTo
                opHash proof none, paidCalls cfg req amountMutez)
      | some _ =>
          match env.proofRespDecode with
          | .error msg => .error msg
          | .ok decoded =>
              .ok (.paymentSucceeded (respOk retryResponse) retryResponse.status
                    retryResponse.statusText retryResponse.bodyText amountMutez req.payTo
                    opHash proof (some decoded), paidCalls cfg req amountMutez)

/-- fetch_x402.ts lines 264-300: query the balance (a rejected query
propagates uncaught), apply the insufficient-balance gate, submit the
transfer and await 3 confirmations (failures of either are caught as the
payment-execution-failed result), then hand over to the retry phase. -/
def checkBalanceAndPay (cfg : Config) (env : Env) (req : X402PaymentRequirements)
    (amountMutez : Option Int) : Except String (FetchResult × List ChainCall) :=
  match env.balance with
  | .error msg => .error msg
  | .ok balance =>
    if balanceBelow balance amountMutez then
      .ok (.insufficientBalance (jAdd amountMutez 100000) balance req,
            [.balanceQuery cfg.walletAddress])
    else
      match env.transfer with
      | .error msg =>
          .ok (.paymentExecutionFailed ("Payment failed: " ++ msg) req,
                [.balanceQuery cfg.walletAddress, .transferSubmit req.payTo amountMutez])
      | .ok opHash =>
          match env.confirmation with
          | .error msg =>
              .ok (.paymentExecutionFailed ("Payment failed: " ++ msg) req,
                    [.balanceQuery cfg.walletAddress, .transferSubmit req.payTo amountMutez,
                     .confirmWait confirmationsToWait])
          | .ok _ => retryPhase cfg env req amountMutez opHash

/-- fetch_x402.ts lines 172-262: the gate sequence exactly as written in the
source — the autoRetry stop first, then network, amount limit, asset, expiry
and address shape, each returning without evaluating the later gates. -/
def afterParse (cfg : Config) (env : Env) (autoRetry : Bool) (maxPaymentMutez : Int)
    (req : X402PaymentRequirements) : Except String (FetchResult × List ChainCall) :=
  if autoRetry = false then
    .ok (.manualPayInstruction req, [])
  else if networkIsTezos req.network = false then
    .ok (.unsupportedNetwork req.network req, [])
  else if jGt (jsParseInt req.maxAmountRequired) maxPaymentMutez then
    .ok (.paymentLimitExceeded (jsParseInt req.maxAmountRequired) maxPaymentMutez req, [])
  else if assetOf req.asset ≠ "XTZ" then
    .ok (.unsupportedAsset (assetOf req.asset) req, [])
  else if expiryPassed req.expiry env.now then
    .ok (.paymentExpired req.expiry req, [])
  else if validTezosAddress req.payTo = false then
    .ok (.invalidAddress req.payTo req, [])
  else
    checkBalanceAndPay cfg env req (jsParseInt req.maxAmountRequired)

/-- The handler body of fetch_x402.ts lines 99-383, abstracted over the three
inputs it actually reads (url, autoRetry, converted payment limit): issue the
initial request (a transport failure is rethrown, line 125), return any
non-402 response verbatim, parse the payment requirement, default its resource
field, and run the gate sequence and payment. -/
def handlerCore (cfg : Config) (env : Env) (url : String) (autoRetry : Bool)
    (maxPaymentMutez : Int) : Except String (FetchResult × List ChainCall) :=
  match env.initialFetch with
  | .error msg => .error ("Failed to fetch " ++ url ++ ": " ++ msg)
  | .ok response =>
    if response.status ≠ 402 then
      .ok (.notPaymentRequired response.status response.statusText response.headers
            response.bodyText (respOk response), [])
    else
      match parsePaymentRequirements response.bodyParse response.headers with
      | none => .ok (.unparsableRequirement response.bodyText, [])
      | some paymentReqs =>
          afterParse cfg env autoRetry maxPaymentMutez
            (defaultResource paymentReqs url)

/-- fetchWithPayment: the tool handler applied to its parameter record. -/
def handler (cfg : Config) (env : Env) (p : Params) :
    Except String (FetchResult × List ChainCall) :=
  handlerCore cfg env p.url p.autoRetry (maxPaymentMutezOf p.maxPayment)

/-!  Spec-side definitions used by refinement statements. -/

/-- The first failing validation gate, in the order the source runs them
(autoRetry stop, network, amount limit, asset, expiry, address shape): none
when every gate before the balance query passes. -/
def firstGateFailure (req : X402PaymentRequirements) (autoRetry : Bool)
    (maxPaymentMutez : Int) (now : Int) : Option FetchResult :=
  if autoRetry = false then
    some (.manualPayInstruction req)
  else if networkIsTezos req.network = false then
    some (.unsupportedNetwork req.network req)
  else if jGt (jsParseInt req.maxAmountRequired) maxPaymentMutez then
    some (.paymentLimitExceeded (jsParseInt req.maxAmountRequired) maxPaymentMutez req)
  else if assetOf req.asset ≠ "XTZ" then
    some (.unsupportedAsset (assetOf req.asset) req)
  else if expiryPassed req.expiry now then
    some (.paymentExpired req.expiry req)
  else if validTezosAddress req.payTo = false then
    some (.invalidAddress req.payTo req)
  else
    none

/-- Spec wording, first parse attempt: a present, nonempty options list wins,
preferring the first option on the supported chain, else the first overall. -/
def attemptAcceptsList (b : X402Response) : Option X402PaymentRequirements :=
  match b.accepts with
  | some accepts =>
    if accepts.length > 0 then
      match accepts.find? (fun req => networkIsTezos req.network) with
      | some tezosOption => some tezosOption
      | none => accepts.head?
    else none
  | none => none

/-- Spec wording, second parse attempt: the single-option field. -/
def attemptSingleField (b : X402Response) : Option X402PaymentRequirements :=
  b.paymentRequirements

/-- The parse algorithm as an ordered chain of attempts (spec section 9):
options list, then single field, then the header fallback — with the header
fallback only reachable from a body that parsed as structured JSON. -/
def orderedParseAttempts (body : BodyParse) (h : HeadersMap) :
    Option X402PaymentRequirements :=
  match body with
  | .malformed => none
  | .parsed b =>
      (attemptAcceptsList b).orElse fun _ =>
        (attemptSingleField b).orElse fun _ => headerFallback h

/-!  Concrete fixtures used by counterexamples and witnesses. -/

/-- A recipient address matching the accepted shape. -/
def addrOk : String := "tz1aaaaaaaaaaaaaaaaaaaaaaaaaaaaaaaaa"

/-- The wallet address the flow is configured with. -/
def walletA : String := "tz1bbbbbbbbbbbbbbbbbbbbbbbbbbbbbbbbb"

def urlX : String := "https://api.example.com/resource"

def cfgA : Config := { walletAddress := walletA }

/-- A requirement on an unsupported network, above the default limit. -/
def reqEthBig : X402PaymentRequirements :=
  { network := "ethereum", maxAmountRequired := "2000000", payTo := addrOk }

def respEthBig : Resp :=
  { status := 402, bodyParse := .parsed { accepts := some [reqEthBig] } }

/-- Headers carrying a complete payment requirement. -/
def hdrsPay : HeadersMap :=
  [("X-Payment-Address", addrOk), ("X-Payment-Amount", "100000")]

/-- A 402 response whose body is plain text (JSON.parse throws) but whose
headers carry the requirement. -/
def respTextBody : Resp :=
  { status := 402, headers := hdrsPay, bodyText := "Payment required",
    bodyParse := .malformed }

/-- The requirement the header fallback would read from hdrsPay. -/
def reqFromHdrs : X402PaymentRequirements :=
  { scheme := some "exact", network := "tezos", maxAmountRequired := "100000",
    resource := "", payTo := addrOk, asset := some "XTZ" }

/-- A supported-network requirement parsed with an empty resource field,
delivered through the single-option field of the body. -/
def reqNoRes : X402PaymentRequirements :=
  { network := "tezos-shadownet", maxAmountRequired := "100000", payTo := addrOk }

def respSingle : Resp :=
  { status := 402, bodyParse := .parsed { paymentRequirements := some reqNoRes } }

/-- A requirement that passes every gate with the fixtures below. -/
def reqTez : X402PaymentRequirements :=
  { network := "tezos-shadownet", maxAmountRequired := "100000", payTo := addrOk,
    asset := some "XTZ" }

def reqTezDefaulted : X402PaymentRequirements := { reqTez with resource := urlX }

def respTez : Resp :=
  { status := 402, bodyParse := .parsed { accepts := some [reqTez] } }

/-- An environment in which the whole pay-and-retry path succeeds. -/
def envPaid : Env :=
  { initialFetch := .ok respTez, balance := .ok 500000, transfer := .ok "opAbc123",
    confirmation := .ok (), retryFetch := .ok { status := 200 } }

/-- An environment in which the payment commits but the retry fetch fails at
the transport level. -/
def envRetryFail : Env :=
  { initialFetch := .ok respTez, balance := .ok 500000, transfer := .ok "opAbc123",
    confirmation := .ok (), retryFetch := .error "socket hang up" }

/-- A requirement whose amount string starts with a space: it does not begin
with a decimal numeral, yet parseInt skips the whitespace and reads 5. -/
def reqSpaceAmt : X402PaymentRequirements :=
  { network := "tezos-shadownet", maxAmountRequired := " 5", payTo := addrOk }

def respSpaceAmt : Resp :=
  { status := 402, bodyParse := .parsed { accepts := some [reqSpaceAmt] } }

def envSpaceAmt : Env :=
  { initialFetch := .ok respSpaceAmt, balance := .ok 500000, transfer := .ok "opX",
    confirmation := .ok (), retryFetch := .ok { status := 200 } }

/-- A requirement whose amount string has no digits at all: parseInt yields
NaN. -/
def reqFree : X402PaymentRequirements :=
  { network := "tezos-shadownet", maxAmountRequired := "free", payTo := addrOk }

def respFree : Resp :=
  { status := 402, bodyParse := .parsed { accepts := some [reqFree] } }

def envFree : Env :=
  { initialFetch := .ok respFree, balance := .ok 500000, transfer := .ok "opY",
    confirmation := .ok (), retryFetch := .ok { status := 200 } }

/-- A supported-network requirement above the default payment limit. -/
def reqTezBig : X402PaymentRequirements :=
  { network := "tezos-shadownet", maxAmountRequired := "2000000", payTo := addrOk }

def respTezBig : Resp :=
  { status := 402, bodyParse := .parsed { accepts := some [reqTezBig] } }

end X402

namespace X402

/-!  Helper lemmas shared by the claim theorems. -/

theorem defaultResource_network (r : X402PaymentRequirements) (u : String) :
    (defaultResource r u).network = r.network := by
  unfold defaultResource; split <;> rfl

theorem defaultResource_amount (r : X402PaymentRequirements) (u : String) :
    (defaultResource r u).maxAmountRequired = r.maxAmountRequired := by
  unfold defaultResource; split <;> rfl

theorem defaultResource_payTo (r : X402PaymentRequirements) (u : String) :
    (defaultResource r u).payTo = r.payTo := by
  unfold defaultResource; split <;> rfl

theorem defaultResource_asset (r : X402PaymentRequirements) (u : String) :
    (defaultResource r u).asset = r.asset := by
  unfold defaultResource; split <;> rfl

theorem defaultResource_expiry (r : X402PaymentRequirements) (u : String) :
    (defaultResource r u).expiry = r.expiry := by
  unfold defaultResource; split <;> rfl

theorem defaultResource_scheme (r : X402PaymentRequirements) (u : String) :
    (defaultResource r u).scheme = r.scheme := by
  unfold defaultResource; split <;> rfl

theorem handler_402_parse (cfg : Config) (env : Env) (p : Params) (resp : Resp)
    (req0 : X402PaymentRequirements)
    (h1 : env.initialFetch = .ok resp) (h2 : resp.status = 402)
    (h3 : parsePaymentRequirements resp.bodyParse resp.headers = some req0) :
    handler cfg env p =
      afterParse cfg env p.autoRetry (maxPaymentMutezOf p.maxPayment)
        (defaultResource req0 p.url) := by
  unfold handler handlerCore
  rw [h1]
  simp [h2, h3]

theorem retryPhase_ok (cfg : Config) (env : Env) (req : X402PaymentRequirements)
    (amt : Option Int) (op : String) (d : String)
    (hd : env.proofRespDecode = .ok d) :
    ∃ out, retryPhase cfg env req amt op = .ok out := by
  unfold retryPhase
  cases hrf : env.retryFetch with
  | error msg => exact ⟨_, rfl⟩
  | ok rr =>
    dsimp only
    cases hh : headerTruthy (headerGet rr.headers "X-PAYMENT-RESPONSE") with
    | none => exact ⟨_, rfl⟩
    | some s => rw [hd]; exact ⟨_, rfl⟩

theorem checkBalanceAndPay_ok (cfg : Config) (env : Env)
    (req : X402PaymentRequirements) (amt : Option Int) (b : Int) (d : String)
    (hb : env.balance = .ok b) (hd : env.proofRespDecode = .ok d) :
    ∃ out, checkBalanceAndPay cfg env req amt = .ok out := by
  unfold checkBalanceAndPay
  rw [hb]
  dsimp only
  split
  · exact ⟨_, rfl⟩
  · cases ht : env.transfer with
    | error m => exact ⟨_, rfl⟩
    | ok op =>
      dsimp only
      cases hc : env.confirmation with
      | error m => exact ⟨_, rfl⟩
      | ok u => exact retryPhase_ok cfg env req amt op d hd

theorem afterParse_ok (cfg : Config) (env : Env) (ar : Bool) (m : Int)
    (req : X402PaymentRequirements) (b : Int) (d : String)
    (hb : env.balance = .ok b) (hd : env.proofRespDecode = .ok d) :
    ∃ out, afterParse cfg env ar m req = .ok out := by
  unfold afterParse
  split
  · exact ⟨_, rfl⟩
  split
  · exact ⟨_, rfl⟩
  split
  · exact ⟨_, rfl⟩
  split
  · exact ⟨_, rfl⟩
  split
  · exact ⟨_, rfl⟩
  split
  · exact ⟨_, rfl⟩
  exact checkBalanceAndPay_ok cfg env req (jsParseInt req.maxAmountRequired) b d hb hd

/-!  Claim theorems. -/

/-- C2: for every initial response whose status is not 402, the handler
returns that response's status, status text, headers, and body verbatim, and
the chain-call trace is empty (no balance query and no transfer). -/
theorem C2_non402_verbatim (cfg : Config) (env : Env) (p : Params) (resp : Resp)
    (h1 : env.initialFetch = .ok resp) (h2 : resp.status ≠ 402) :
    handler cfg env p =
      .ok (.notPaymentRequired resp.status resp.statusText resp.headers resp.bodyText
            (respOk resp), []) := by
  unfold handler handlerCore
  rw [h1]
  simp [h2]

/-- C2 witness: a concrete 200 response is returned verbatim with no chain
calls. -/
theorem C2_non402_verbatim_witness :
    handler cfgA
      { initialFetch := .ok { status := 200, statusText := "OK", bodyText := "hello" } }
      { url := urlX } =
    .ok (.notPaymentRequired 200 "OK" [] "hello" true, []) :=
  C2_non402_verbatim cfgA
    { initialFetch := .ok { status := 200, statusText := "OK", bodyText := "hello" } }
    { url := urlX } { status := 200, statusText := "OK", bodyText := "hello" }
    rfl (by decide)

/-- C5 counterexample: a transport failure of the initial fetch is rethrown
(fetch_x402.ts line 125) and escapes the call boundary as an exception, so
the flow does not return a tagged result for every failure. -/
theorem C5_counterexample :
    handler cfgA { initialFetch := .error "ECONNREFUSED" } { url := urlX } =
      .error ("Failed to fetch " ++ urlX ++ ": ECONNREFUSED") := rfl

/-- C5 (amended): every failure is returned as a tagged result except the
exceptions the source leaves uncaught — a transport failure or timeout of the
initial fetch (rethrown at line 125), a rejected balance query (line 265), and
a malformed payment-response header on the retry (JSON.parse at line 377).
When the initial fetch, the balance query and the header decode succeed, the
handler always returns a tagged result. -/
theorem C5_all_failures_tagged (cfg : Config) (env : Env) (p : Params)
    (resp : Resp) (b : Int) (d : String)
    (h1 : env.initialFetch = .ok resp) (hb : env.balance = .ok b)
    (hd : env.proofRespDecode = .ok d) :
    ∃ res calls, handler cfg env p = .ok (res, calls) := by
  unfold handler handlerCore
  rw [h1]
  dsimp only
  split
  · exact ⟨_, _, rfl⟩
  cases hp : parsePaymentRequirements resp.bodyParse resp.headers with
  | none => exact ⟨_, _, rfl⟩
  | some req0 =>
    obtain ⟨⟨res, calls⟩, hout⟩ :=
      afterParse_ok cfg env p.autoRetry (maxPaymentMutezOf p.maxPayment)
        (defaultResource req0 p.url) b d hb hd
    exact ⟨res, calls, hout⟩

/-- C5 witness: on a concrete 402 response with autoRetry disabled the handler
returns a tagged result. -/
theorem C5_all_failures_tagged_witness :
    ∃ res calls,
      handler cfgA { initialFetch := .ok respEthBig } { url := urlX, autoRetry := false } =
        .ok (res, calls) :=
  C5_all_failures_tagged cfgA { initialFetch := .ok respEthBig }
    { url := urlX, autoRetry := false } respEthBig 0 "" rfl rfl rfl

/-- C1 counterexample: a 402 requirement that fails the network gate, with
autoRetry disabled, is answered with the manual-pay instruction and never with
the unsupported-network failure: the source checks autoRetry (line 172) before
the network gate (line 188), while the claim puts the network gate first. -/
theorem C1_counterexample :
    handler cfgA { initialFetch := .ok respEthBig } { url := urlX, autoRetry := false } =
      .ok (.manualPayInstruction { reqEthBig with resource := urlX }, []) ∧
    networkIsTezos reqEthBig.network = false ∧
    kindOfOutcome (handler cfgA { initialFetch := .ok respEthBig }
        { url := urlX, autoRetry := false }) ≠ some "UnsupportedNetwork" :=
  ⟨rfl, rfl, by decide⟩

/-- C1 (amended): on a 402 response with a parsed requirement, the gates run
in the fixed source order — autoRetry stop, network, amount limit, asset,
expiry, address shape, balance — the result is exactly the failure of the
earliest failing gate in this order, later gates never execute, and no chain
call is made before the balance gate. -/
theorem C1_gate_order (cfg : Config) (env : Env) (p : Params) (resp : Resp)
    (req0 : X402PaymentRequirements)
    (h1 : env.initialFetch = .ok resp) (h2 : resp.status = 402)
    (h3 : parsePaymentRequirements resp.bodyParse resp.headers = some req0) :
    (∀ res, firstGateFailure (defaultResource req0 p.url) p.autoRetry
          (maxPaymentMutezOf p.maxPayment) env.now = some res →
        handler cfg env p = .ok (res, [])) ∧
    (firstGateFailure (defaultResource req0 p.url) p.autoRetry
          (maxPaymentMutezOf p.maxPayment) env.now = none →
      ∀ b, env.balance = .ok b →
        balanceBelow b (jsParseInt (defaultResource req0 p.url).maxAmountRequired) = true →
        handler cfg env p =
          .ok (.insufficientBalance
                (jAdd (jsParseInt (defaultResource req0 p.url).maxAmountRequired) 100000) b
                (defaultResource req0 p.url), [.balanceQuery cfg.walletAddress])) := by
  rw [handler_402_parse cfg env p resp req0 h1 h2 h3]
  constructor
  · intro res hres
    unfold firstGateFailure at hres
    unfold afterParse
    split_ifs at hres ⊢ <;> simp_all
  · intro hnone b hb hbal
    unfold firstGateFailure at hnone
    unfold afterParse
    split_ifs at hnone ⊢
    unfold checkBalanceAndPay
    rw [hb]
    dsimp only
    rw [if_pos hbal]

/-- C1 witness: a requirement on an unsupported network with autoRetry enabled
is reported as exactly the unsupported-network failure with no chain calls. -/
theorem C1_gate_order_witness :
    handler cfgA { initialFetch := .ok respEthBig } { url := urlX } =
      .ok (.unsupportedNetwork "ethereum" { reqEthBig with resource := urlX }, []) :=
  (C1_gate_order cfgA { initialFetch := .ok respEthBig } { url := urlX } respEthBig
    reqEthBig rfl rfl rfl).1 _ rfl

/-- C3 counterexample: a 402 response whose body is not parseable JSON but
whose headers carry a full payment requirement is reported as unparsable — the
header fallback of fetch_x402.ts lies inside the try block and is never
reached when JSON.parse throws, while the claim promises a fallback to headers
exactly when no parseable structured body exists. -/
theorem C3_counterexample :
    parsePaymentRequirements .malformed hdrsPay = none ∧
    headerFallback hdrsPay = some reqFromHdrs ∧
    handler cfgA { initialFetch := .ok respTextBody } { url := urlX } =
      .ok (.unparsableRequirement "Payment required", []) :=
  ⟨rfl, by decide, rfl⟩

/-- C3 (amended): requirement extraction equals the ordered chain of parse
attempts — options list (first supported-chain option, else first overall),
then single-option field, then header fallback — except that the header
fallback is only reachable from a body that parsed as structured JSON; a body
that JSON.parse rejects yields no requirement regardless of headers, and the
handler then fails with the unparsable-requirement result carrying the raw
body. -/
theorem C3_parse_algorithm :
    (∀ body h, parsePaymentRequirements body h = orderedParseAttempts body h) ∧
    (∀ cfg env p resp, env.initialFetch = .ok resp → resp.status = 402 →
      parsePaymentRequirements resp.bodyParse resp.headers = none →
      handler cfg env p = .ok (.unparsableRequirement resp.bodyText, [])) := by
  constructor
  · intro body h
    cases body with
    | malformed => rfl
    | parsed b =>
      cases b with
      | mk accepts pr =>
        cases accepts with
        | none => cases pr <;> rfl
        | some l =>
          cases l with
          | nil =>
            unfold parsePaymentRequirements orderedParseAttempts attemptAcceptsList
              attemptSingleField
            dsimp only
            cases pr <;> simp [Option.orElse]
          | cons x xs =>
            unfold parsePaymentRequirements orderedParseAttempts attemptAcceptsList
            dsimp only
            cases hf : List.find? (fun req => networkIsTezos req.network) (x :: xs) with
            | none => simp [hf, Option.orElse]
            | some t => simp [hf, Option.orElse]
  · intro cfg env p resp h1 h2 hp
    unfold handler handlerCore
    rw [h1]
    simp [h2, hp]

/-- C3 witness: the unparsable branch at a concrete malformed-body response,
and the parse equality at a concrete structured body. -/
theorem C3_parse_algorithm_witness :
    handler cfgA { initialFetch := .ok respTextBody } { url := urlX } =
      .ok (.unparsableRequirement "Payment required", []) ∧
    parsePaymentRequirements (.parsed { accepts := some [reqEthBig] }) [] =
      orderedParseAttempts (.parsed { accepts := some [reqEthBig] }) [] :=
  ⟨C3_parse_algorithm.2 cfgA { initialFetch := .ok respTextBody } { url := urlX }
      respTextBody rfl rfl rfl,
   C3_parse_algorithm.1 (.parsed { accepts := some [reqEthBig] }) []⟩

/-- C6 counterexample: a 402 requirement that both exceeds the payment limit
and names an unsupported network fails with the unsupported-network result,
not with the payment-limit result, so the claim does not hold for every
over-limit 402 response. -/
theorem C6_counterexample :
    jGt (jsParseInt reqEthBig.maxAmountRequired) (maxPaymentMutezOf none) = true ∧
    handler cfgA { initialFetch := .ok respEthBig } { url := urlX, method := "POST" } =
      .ok (.unsupportedNetwork "ethereum" { reqEthBig with resource := urlX }, []) ∧
    kindOfOutcome (handler cfgA { initialFetch := .ok respEthBig }
        { url := urlX, method := "POST" }) ≠ some "PaymentLimitExceeded" :=
  ⟨by decide, rfl, by decide⟩

/-- C6 (amended): on every 402 response whose parsed requirement passes the
earlier gates (autoRetry enabled, supported network) and whose required amount
exceeds the converted payment limit, the handler fails with the payment-limit
result and performs zero chain calls. -/
theorem C6_limit_gate (cfg : Config) (env : Env) (p : Params) (resp : Resp)
    (req0 : X402PaymentRequirements)
    (h1 : env.initialFetch = .ok resp) (h2 : resp.status = 402)
    (h3 : parsePaymentRequirements resp.bodyParse resp.headers = some req0)
    (h4 : p.autoRetry = true)
    (h5 : networkIsTezos req0.network = true)
    (h6 : jGt (jsParseInt req0.maxAmountRequired) (maxPaymentMutezOf p.maxPayment) = true) :
    handler cfg env p =
      .ok (.paymentLimitExceeded (jsParseInt req0.maxAmountRequired)
            (maxPaymentMutezOf p.maxPayment) (defaultResource req0 p.url), []) := by
  rw [handler_402_parse cfg env p resp req0 h1 h2 h3]
  unfold afterParse
  rw [defaultResource_network, defaultResource_amount, h4]
  simp [h5, h6]

/-- C6 witness: a concrete requirement of 2000000 mutez against the default
1000000 mutez limit fails with the payment-limit result and an empty trace. -/
theorem C6_limit_gate_witness :
    handler cfgA { initialFetch := .ok respTezBig } { url := urlX } =
      .ok (.paymentLimitExceeded (some 2000000) 1000000
            { reqTezBig with resource := urlX }, []) :=
  C6_limit_gate cfgA { initialFetch := .ok respTezBig } { url := urlX } respTezBig
    reqTezBig rfl rfl rfl rfl rfl rfl

theorem retryPhase_reqOf (cfg : Config) (env : Env) (req : X402PaymentRequirements)
    (amt : Option Int) (op : String) (res : FetchResult) (calls : List ChainCall)
    (r : X402PaymentRequirements)
    (h : retryPhase cfg env req amt op = .ok (res, calls))
    (hr : reqOfResult res = some r) : r = req := by
  unfold retryPhase at h
  cases hrf : env.retryFetch with
  | error m =>
    rw [hrf] at h
    rw [Except.ok.injEq, Prod.mk.injEq] at h
    obtain ⟨rfl, rfl⟩ := h
    simp_all [reqOfResult]
  | ok rr =>
    rw [hrf] at h
    dsimp only at h
    cases hh : headerTruthy (headerGet rr.headers "X-PAYMENT-RESPONSE") with
    | none =>
      rw [hh] at h
      rw [Except.ok.injEq, Prod.mk.injEq] at h
      obtain ⟨rfl, rfl⟩ := h
      simp_all [reqOfResult]
    | some s =>
      rw [hh] at h
      cases hd : env.proofRespDecode with
      | error m => rw [hd] at h; simp_all
      | ok dec =>
        rw [hd] at h
        rw [Except.ok.injEq, Prod.mk.injEq] at h
        obtain ⟨rfl, rfl⟩ := h
        simp_all [reqOfResult]

theorem checkBalanceAndPay_reqOf (cfg : Config) (env : Env)
    (req : X402PaymentRequirements) (amt : Option Int) (res : FetchResult)
    (calls : List ChainCall) (r : X402PaymentRequirements)
    (h : checkBalanceAndPay cfg env req amt = .ok (res, calls))
    (hr : reqOfResult res = some r) : r = req := by
  unfold checkBalanceAndPay at h
  cases hb : env.balance with
  | error m => rw [hb] at h; simp_all
  | ok b =>
    rw [hb] at h
    dsimp only at h
    split at h
    · rw [Except.ok.injEq, Prod.mk.injEq] at h
      obtain ⟨rfl, rfl⟩ := h
      simp_all [reqOfResult]
    · cases ht : env.transfer with
      | error m =>
        rw [ht] at h
        rw [Except.ok.injEq, Prod.mk.injEq] at h
        obtain ⟨rfl, rfl⟩ := h
        simp_all [reqOfResult]
      | ok op =>
        rw [ht] at h
        dsimp only at h
        cases hc : env.confirmation with
        | error m =>
          rw [hc] at h
          rw [Except.ok.injEq, Prod.mk.injEq] at h
          obtain ⟨rfl, rfl⟩ := h
          simp_all [reqOfResult]
        | ok u =>
          rw [hc] at h
          exact retryPhase_reqOf cfg env req amt op res calls r h hr

theorem afterParse_reqOf (cfg : Config) (env : Env) (ar : Bool) (m : Int)
    (req : X402PaymentRequirements) (res : FetchResult) (calls : List ChainCall)
    (r : X402PaymentRequirements)
    (h : afterParse cfg env ar m req = .ok (res, calls))
    (hr : reqOfResult res = some r) : r = req := by
  unfold afterParse at h
  split_ifs at h <;>
    first
    | exact checkBalanceAndPay_reqOf cfg env req (jsParseInt req.maxAmountRequired)
        res calls r h hr
    | (obtain ⟨rfl, rfl⟩ := h
       simp_all [reqOfResult])

/-- C4 counterexample: a requirement parsed with an empty resource field is
handed on with that field overwritten by the request url (fetch_x402.ts lines
168-170), so the parsed requirement is not immutable: the requirement the
caller receives differs from the parsed one. -/
theorem C4_counterexample :
    handler cfgA { initialFetch := .ok respSingle } { url := urlX, autoRetry := false } =
      .ok (.manualPayInstruction { reqNoRes with resource := urlX }, []) ∧
    reqNoRes.resource = "" ∧
    ({ reqNoRes with resource := urlX } : X402PaymentRequirements) ≠ reqNoRes :=
  ⟨rfl, rfl, by decide⟩

/-- C4 (amended): once the resource field has been defaulted to the request
url (the only write, applied immediately after parsing when that field is
empty), the requirement is fixed: every other field always equals the parsed
value, a requirement parsed with a nonempty resource is unchanged entirely,
and every requirement a result carries is exactly the defaulted value. -/
theorem C4_requirement_fixed (cfg : Config) (env : Env) (p : Params) (resp : Resp)
    (req0 : X402PaymentRequirements)
    (h1 : env.initialFetch = .ok resp) (h2 : resp.status = 402)
    (h3 : parsePaymentRequirements resp.bodyParse resp.headers = some req0) :
    ((defaultResource req0 p.url).network = req0.network ∧
     (defaultResource req0 p.url).maxAmountRequired = req0.maxAmountRequired ∧
     (defaultResource req0 p.url).payTo = req0.payTo ∧
     (defaultResource req0 p.url).asset = req0.asset ∧
     (defaultResource req0 p.url).expiry = req0.expiry ∧
     (defaultResource req0 p.url).scheme = req0.scheme) ∧
    (req0.resource ≠ "" → defaultResource req0 p.url = req0) ∧
    (∀ res calls r, handler cfg env p = .ok (res, calls) →
      reqOfResult res = some r → r = defaultResource req0 p.url) := by
  refine ⟨⟨defaultResource_network req0 p.url, defaultResource_amount req0 p.url,
    defaultResource_payTo req0 p.url, defaultResource_asset req0 p.url,
    defaultResource_expiry req0 p.url, defaultResource_scheme req0 p.url⟩, ?_, ?_⟩
  · intro hne
    unfold defaultResource
    rw [if_neg hne]
  · intro res calls r hh hr
    rw [handler_402_parse cfg env p resp req0 h1 h2 h3] at hh
    exact afterParse_reqOf cfg env p.autoRetry (maxPaymentMutezOf p.maxPayment)
      (defaultResource req0 p.url) res calls r hh hr

/-- C4 witness: at a concrete parsed requirement with an empty resource, the
requirement the manual-pay result carries is the defaulted value. -/
theorem C4_requirement_fixed_witness :
    ({ reqNoRes with resource := urlX } : X402PaymentRequirements) =
      defaultResource reqNoRes urlX :=
  (C4_requirement_fixed cfgA { initialFetch := .ok respSingle }
      { url := urlX, autoRetry := false } respSingle reqNoRes rfl rfl rfl).2.2
    (.manualPayInstruction { reqNoRes with resource := urlX }) [] _ rfl rfl

theorem retryPhase_proofOf (cfg : Config) (env : Env) (req : X402PaymentRequirements)
    (amt : Option Int) (op : String) (res : FetchResult) (calls : List ChainCall)
    (pf : PaymentProof)
    (h : retryPhase cfg env req amt op = .ok (res, calls))
    (hpf : proofOfResult res = some pf) :
    pf = mkPaymentProof cfg req amt op ∧ calls = paidCalls cfg req amt := by
  unfold retryPhase at h
  cases hrf : env.retryFetch with
  | error m =>
    rw [hrf] at h
    rw [Except.ok.injEq, Prod.mk.injEq] at h
    obtain ⟨rfl, rfl⟩ := h
    simp_all [proofOfResult]
  | ok rr =>
    rw [hrf] at h
    dsimp only at h
    cases hh : headerTruthy (headerGet rr.headers "X-PAYMENT-RESPONSE") with
    | none =>
      rw [hh] at h
      rw [Except.ok.injEq, Prod.mk.injEq] at h
      obtain ⟨rfl, rfl⟩ := h
      simp_all [proofOfResult]
    | some s =>
      rw [hh] at h
      cases hd : env.proofRespDecode with
      | error m => rw [hd] at h; simp_all
      | ok dec =>
        rw [hd] at h
        rw [Except.ok.injEq, Prod.mk.injEq] at h
        obtain ⟨rfl, rfl⟩ := h
        simp_all [proofOfResult]

theorem checkBalanceAndPay_proofOf (cfg : Config) (env : Env)
    (req : X402PaymentRequirements) (amt : Option Int) (res : FetchResult)
    (calls : List ChainCall) (pf : PaymentProof)
    (h : checkBalanceAndPay cfg env req amt = .ok (res, calls))
    (hpf : proofOfResult res = some pf) :
    ∃ op, env.transfer = .ok op ∧ env.confirmation = .ok () ∧
      pf = mkPaymentProof cfg req amt op ∧ calls = paidCalls cfg req amt := by
  unfold checkBalanceAndPay at h
  cases hb : env.balance with
  | error m => rw [hb] at h; simp_all
  | ok b =>
    rw [hb] at h
    dsimp only at h
    split at h
    · rw [Except.ok.injEq, Prod.mk.injEq] at h
      obtain ⟨rfl, rfl⟩ := h
      simp_all [proofOfResult]
    · cases ht : env.transfer with
      | error m =>
        rw [ht] at h
        rw [Except.ok.injEq, Prod.mk.injEq] at h
        obtain ⟨rfl, rfl⟩ := h
        simp_all [proofOfResult]
      | ok op =>
        rw [ht] at h
        dsimp only at h
        cases hc : env.confirmation with
        | error m =>
          rw [hc] at h
          rw [Except.ok.injEq, Prod.mk.injEq] at h
          obtain ⟨rfl, rfl⟩ := h
          simp_all [proofOfResult]
        | ok u =>
          rw [hc] at h
          cases u
          obtain ⟨hpe, hce⟩ := retryPhase_proofOf cfg env req amt op res calls pf h hpf
          exact ⟨op, rfl, rfl, hpe, hce⟩

theorem afterParse_proofOf (cfg : Config) (env : Env) (ar : Bool) (m : Int)
    (req : X402PaymentRequirements) (res : FetchResult) (calls : List ChainCall)
    (pf : PaymentProof)
    (h : afterParse cfg env ar m req = .ok (res, calls))
    (hpf : proofOfResult res = some pf) :
    ∃ op, env.transfer = .ok op ∧ env.confirmation = .ok () ∧
      pf = mkPaymentProof cfg req (jsParseInt req.maxAmountRequired) op ∧
      calls = paidCalls cfg req (jsParseInt req.maxAmountRequired) := by
  unfold afterParse at h
  split_ifs at h <;>
    first
    | exact checkBalanceAndPay_proofOf cfg env req (jsParseInt req.maxAmountRequired)
        res calls pf h hpf
    | (obtain ⟨rfl, rfl⟩ := h
       simp_all [proofOfResult])

/-- C7: whenever a handler execution produces a result carrying a payment
proof, the transfer was submitted and the confirmation wait at the fixed depth
of 3 confirmations succeeded first (the trace is exactly balance query, then
transfer submission, then the depth-3 confirmation wait), and the proof's
authorization transcript references the committed transaction identifier: its
opHash is the hash the transfer returned and equals the proof signature. -/
theorem C7_proof_only_after_confirmation (cfg : Config) (env : Env) (p : Params)
    (res : FetchResult) (calls : List ChainCall) (pf : PaymentProof)
    (hres : handler cfg env p = .ok (res, calls))
    (hpf : proofOfResult res = some pf) :
    env.transfer = .ok pf.authorization.opHash ∧
    env.confirmation = .ok () ∧
    pf.signature = pf.authorization.opHash ∧
    calls = [.balanceQuery cfg.walletAddress,
             .transferSubmit pf.authorization.toAddr pf.authorization.amount,
             .confirmWait 3] := by
  unfold handler handlerCore at hres
  cases hi : env.initialFetch with
  | error m => rw [hi] at hres; simp_all
  | ok resp =>
    rw [hi] at hres
    dsimp only at hres
    split at hres
    · rw [Except.ok.injEq, Prod.mk.injEq] at hres
      obtain ⟨rfl, rfl⟩ := hres
      simp_all [proofOfResult]
    · cases hp : parsePaymentRequirements resp.bodyParse resp.headers with
      | none =>
        rw [hp] at hres
        rw [Except.ok.injEq, Prod.mk.injEq] at hres
        obtain ⟨rfl, rfl⟩ := hres
        simp_all [proofOfResult]
      | some req0 =>
        rw [hp] at hres
        obtain ⟨op, ht, hc, hpfeq, hcalls⟩ :=
          afterParse_proofOf cfg env p.autoRetry (maxPaymentMutezOf p.maxPayment)
            (defaultResource req0 p.url) res calls pf hres hpf
        subst hpfeq
        subst hcalls
        exact ⟨ht, hc, rfl, rfl⟩

/-- C7 witness: a concrete end-to-end success run carries a proof whose opHash
is the transferred operation hash, with the confirmation wait in the trace. -/
theorem C7_proof_only_after_confirmation_witness :
    (envPaid.transfer = .ok (mkPaymentProof cfgA reqTezDefaulted (some 100000)
        "opAbc123").authorization.opHash) ∧
    envPaid.confirmation = .ok () ∧
    (mkPaymentProof cfgA reqTezDefaulted (some 100000) "opAbc123").signature =
      (mkPaymentProof cfgA reqTezDefaulted (some 100000) "opAbc123").authorization.opHash ∧
    paidCalls cfgA reqTezDefaulted (some 100000) =
      [.balanceQuery cfgA.walletAddress,
       .transferSubmit (mkPaymentProof cfgA reqTezDefaulted (some 100000)
          "opAbc123").authorization.toAddr
         (mkPaymentProof cfgA reqTezDefaulted (some 100000) "opAbc123").authorization.amount,
       .confirmWait 3] :=
  C7_proof_only_after_confirmation cfgA envPaid { url := urlX }
    (.paymentSucceeded true 200 "" "" (some 100000) addrOk "opAbc123"
      (mkPaymentProof cfgA reqTezDefaulted (some 100000) "opAbc123") none)
    (paidCalls cfgA reqTezDefaulted (some 100000))
    (mkPaymentProof cfgA reqTezDefaulted (some 100000) "opAbc123") rfl rfl

/-- C8: whenever the payment has been committed (transfer submitted and
confirmed) and the retry request fails at the transport level, the handler
returns the payment-made-retry-failed result — a constructor distinct from the
payment-execution-failed result — and that result includes the committed
transaction identifier. -/
theorem C8_retry_failure_distinct (cfg : Config) (env : Env) (p : Params)
    (resp : Resp) (req0 : X402PaymentRequirements) (b : Int) (op m : String)
    (h1 : env.initialFetch = .ok resp) (h2 : resp.status = 402)
    (h3 : parsePaymentRequirements resp.bodyParse resp.headers = some req0)
    (h4 : p.autoRetry = true)
    (h5 : networkIsTezos req0.network = true)
    (h6 : jGt (jsParseInt req0.maxAmountRequired) (maxPaymentMutezOf p.maxPayment) = false)
    (h7 : assetOf req0.asset = "XTZ")
    (h8 : expiryPassed req0.expiry env.now = false)
    (h9 : validTezosAddress req0.payTo = true)
    (hb : env.balance = .ok b)
    (h10 : balanceBelow b (jsParseInt req0.maxAmountRequired) = false)
    (ht : env.transfer = .ok op) (hc : env.confirmation = .ok ())
    (hr : env.retryFetch = .error m) :
    handler cfg env p =
      .ok (.paymentMadeRetryFailed ("Payment OK but retry failed: " ++ m) op
            (jsParseInt req0.maxAmountRequired)
            (mkPaymentProof cfg (defaultResource req0 p.url)
              (jsParseInt req0.maxAmountRequired) op),
          paidCalls cfg (defaultResource req0 p.url) (jsParseInt req0.maxAmountRequired)) ∧
    (∀ msg r, FetchResult.paymentMadeRetryFailed ("Payment OK but retry failed: " ++ m) op
        (jsParseInt req0.maxAmountRequired)
        (mkPaymentProof cfg (defaultResource req0 p.url)
          (jsParseInt req0.maxAmountRequired) op) ≠
      FetchResult.paymentExecutionFailed msg r) := by
  refine ⟨?_, fun msg r => by intro hcontra; cases hcontra⟩
  rw [handler_402_parse cfg env p resp req0 h1 h2 h3]
  unfold afterParse
  rw [defaultResource_network, defaultResource_amount, defaultResource_asset,
    defaultResource_expiry, defaultResource_payTo, h4]
  simp only [h5, h6, h7, h8, h9]
  norm_num
  unfold checkBalanceAndPay
  rw [hb]
  dsimp only
  rw [if_neg (by rw [h10]; exact Bool.false_ne_true)]
  rw [ht]
  dsimp only
  rw [hc]
  unfold retryPhase
  rw [hr]

/-- C8 witness: a concrete committed payment followed by a transport failure
of the retry yields the payment-made-retry-failed result with the operation
hash. -/
theorem C8_retry_failure_distinct_witness :
    handler cfgA envRetryFail { url := urlX } =
      .ok (.paymentMadeRetryFailed "Payment OK but retry failed: socket hang up"
            "opAbc123" (some 100000)
            (mkPaymentProof cfgA (defaultResource reqTez urlX) (some 100000) "opAbc123"),
          paidCalls cfgA (defaultResource reqTez urlX) (some 100000)) ∧
    (∀ msg r, FetchResult.paymentMadeRetryFailed
        "Payment OK but retry failed: socket hang up" "opAbc123" (some 100000)
        (mkPaymentProof cfgA (defaultResource reqTez urlX) (some 100000) "opAbc123") ≠
      FetchResult.paymentExecutionFailed msg r) :=
  C8_retry_failure_distinct cfgA envRetryFail { url := urlX } respTez reqTez 500000
    "opAbc123" "socket hang up" rfl rfl rfl rfl rfl rfl rfl rfl rfl rfl rfl rfl rfl rfl

/-- C9: calling the flow with maxPayment equal to zero behaves exactly as
calling it with maxPayment absent — the JS truthiness test at fetch_x402.ts
line 103 sends both to the default of 1 XTZ — so the converted limit is
1000000 mutez and the limit gate accepts any amount up to 1000000 rather than
rejecting every payment. -/
theorem C9_zero_limit_default (cfg : Config) (env : Env) (p : Params) :
    handler cfg env { p with maxPayment := some 0 } =
      handler cfg env { p with maxPayment := none } ∧
    maxPaymentMutezOf (some 0) = 1000000 ∧
    maxPaymentMutezOf none = xtzToMutez 1 ∧
    xtzToMutez 1 = 1000000 ∧
    jGt (some 1000000) (maxPaymentMutezOf (some 0)) = false ∧
    jGt (some 1000001) (maxPaymentMutezOf (some 0)) = true := by
  refine ⟨?_, by decide, rfl, by decide, by decide, by decide⟩
  show handlerCore cfg env p.url p.autoRetry (maxPaymentMutezOf (some 0)) =
    handlerCore cfg env p.url p.autoRetry (maxPaymentMutezOf none)
  rw [show maxPaymentMutezOf (some 0) = maxPaymentMutezOf none from by decide]

theorem jsParseInt_none_of_noDigits (s : String)
    (h : (jsDigitsOf s).isEmpty = true) : jsParseInt s = none := by
  simp [jsParseInt, h]

/-- C10 counterexample: the amount string of a single space followed by 5 does
not begin with a decimal numeral, yet parseInt skips leading whitespace and
parses 5 — not NaN — and the flow pays 5 mutez, so the claim's premise does
not imply a NaN amount. -/
theorem C10_counterexample :
    (" 5").data.head? = some ' ' ∧
    Char.isDigit ' ' = false ∧
    jsParseInt " 5" = some 5 ∧
    handler cfgA envSpaceAmt { url := urlX } =
      .ok (.paymentSucceeded true 200 "" "" (some 5) addrOk "opX"
            (mkPaymentProof cfgA { reqSpaceAmt with resource := urlX } (some 5) "opX")
            none,
          paidCalls cfgA { reqSpaceAmt with resource := urlX } (some 5)) :=
  ⟨rfl, rfl, rfl, rfl⟩

/-- C10 (amended): for every 402 requirement whose amount string, after
optional leading whitespace and an optional sign, does not begin with a
decimal digit, the parsed amount is NaN; both the payment-limit gate and the
insufficient-balance gate pass, because their numeric comparisons against NaN
are false; and the flow proceeds to submit a transfer with a NaN amount rather
than failing at any validation gate. -/
theorem C10_nan_reaches_transfer (cfg : Config) (env : Env) (p : Params)
    (resp : Resp) (req0 : X402PaymentRequirements) (b : Int) (d : String)
    (h1 : env.initialFetch = .ok resp) (h2 : resp.status = 402)
    (h3 : parsePaymentRequirements resp.bodyParse resp.headers = some req0)
    (h4 : p.autoRetry = true)
    (h5 : networkIsTezos req0.network = true)
    (hnan : (jsDigitsOf req0.maxAmountRequired).isEmpty = true)
    (h7 : assetOf req0.asset = "XTZ")
    (h8 : expiryPassed req0.expiry env.now = false)
    (h9 : validTezosAddress req0.payTo = true)
    (hb : env.balance = .ok b) (hd : env.proofRespDecode = .ok d) :
    jsParseInt req0.maxAmountRequired = none ∧
    jGt (jsParseInt req0.maxAmountRequired) (maxPaymentMutezOf p.maxPayment) = false ∧
    balanceBelow b (jsParseInt req0.maxAmountRequired) = false ∧
    ∃ res calls, handler cfg env p = .ok (res, calls) ∧
      ChainCall.transferSubmit (defaultResource req0 p.url).payTo none ∈ calls := by
  have hn : jsParseInt req0.maxAmountRequired = none :=
    jsParseInt_none_of_noDigits req0.maxAmountRequired hnan
  refine ⟨hn, by rw [hn]; rfl, by rw [hn]; rfl, ?_⟩
  rw [handler_402_parse cfg env p resp req0 h1 h2 h3]
  unfold afterParse
  rw [defaultResource_network, defaultResource_amount, defaultResource_asset,
    defaultResource_expiry, defaultResource_payTo, h4, hn]
  simp only [h5, h7, h8, h9]
  norm_num
  unfold checkBalanceAndPay
  rw [hb]
  dsimp only
  rw [if_neg (by exact Bool.false_ne_true)]
  cases ht : env.transfer with
  | error m => exact ⟨_, _, rfl, by simp [defaultResource_payTo]⟩
  | ok op =>
    dsimp only
    cases hc : env.confirmation with
    | error m => exact ⟨_, _, rfl, by simp [defaultResource_payTo]⟩
    | ok u =>
      unfold retryPhase
      cases hrf : env.retryFetch with
      | error m => exact ⟨_, _, rfl, by simp [paidCalls, defaultResource_payTo]⟩
      | ok rr =>
        dsimp only
        cases hh : headerTruthy (headerGet rr.headers "X-PAYMENT-RESPONSE") with
        | none => exact ⟨_, _, rfl, by simp [paidCalls, defaultResource_payTo]⟩
        | some s => rw [hd]; exact ⟨_, _, rfl, by simp [paidCalls, defaultResource_payTo]⟩

/-- C10 witness: a concrete requirement whose amount is the word free reaches
the transfer submission with a NaN amount. -/
theorem C10_nan_reaches_transfer_witness :
    jsParseInt "free" = none ∧
    jGt (jsParseInt "free") (maxPaymentMutezOf none) = false ∧
    balanceBelow 500000 (jsParseInt "free") = false ∧
    ∃ res calls, handler cfgA envFree { url := urlX } = .ok (res, calls) ∧
      ChainCall.transferSubmit (defaultResource reqFree urlX).payTo none ∈ calls :=
  C10_nan_reaches_transfer cfgA envFree { url := urlX } respFree reqFree 500000 ""
    rfl rfl rfl rfl rfl rfl rfl rfl rfl rfl rfl

end X402
